import Mathlib

/-!
Shallow embedding of the core of the `rust-nes-emulator` repository:
the MOS 6502 CPU executor fragments, the MMU address decoder, the opcode
decoder table and the iNES cartridge parser, as found in
`src/cpu/cpu.rs`, `src/cpu/decoder.rs`, `src/mmu.rs`, `src/rom_parser.rs`,
`src/cartridge.rs`, `src/ppu/ppu.rs` and `src/apu/apu.rs`.

Machine bytes (`u8`) and addresses (`u16`) are embedded as `Nat`, with
`% 256` (resp. `% 65536`) made explicit wherever the Rust code wraps.
A Rust panic (`panic!`, `todo!`, a failed `assert!`, an out-of-bounds
array index, an arithmetic overflow in a checked build, or `.expect`)
is embedded as `Option.none`; fixed-size Rust arrays are embedded as
functions `Nat → Nat` together with an explicit size constant, and every
indexing operation goes through a bounds-checked access.
-/

namespace NesEmu

/-! ### Processor status bit utilities (src/cpu/registers.rs)

`ProcessorStatusRegister.set`/`get` operate on a packed `u8` of flags with
bit indices CARRY = 0, ZERO = 1, INTERRUPT_DISABLE = 2, DECIMAL = 3,
BREAK = 4, UNUSED = 5, OVERFLOW = 6, NEGATIVE = 7. -/

/-- Embeds `ProcessorStatusRegister::get`: `flags & (1 << index) != 0`. -/
def psGet (flags : Nat) (index : Nat) : Bool :=
  flags &&& (1 <<< index) != 0

/-- Embeds `ProcessorStatusRegister::set`: `flags |= 1 << index` when the
value is true, `flags &= !(1 << index)` (a `u8` complement) otherwise. -/
def psSet (flags : Nat) (index : Nat) (value : Bool) : Nat :=
  if value then
    flags ||| (1 <<< index)
  else
    flags &&& (0xFF ^^^ (1 <<< index))

/-! ### Fixed-size byte arrays -/

/-- Bounds-checked read of a fixed-size byte array: Rust indexing `arr[i]`
on an `[u8; size]` panics (here: `none`) when `i` is out of range. -/
def arrayGet (size : Nat) (arr : Nat → Nat) (i : Nat) : Option Nat :=
  if i < size then some (arr i) else none

/-- Bounds-checked write of a fixed-size byte array: Rust `arr[i] = v`
on an `[u8; size]` panics (here: `none`) when `i` is out of range. -/
def arraySet (size : Nat) (arr : Nat → Nat) (i v : Nat) : Option (Nat → Nat) :=
  if i < size then some (fun j => if j = i then v else arr j) else none

/-! ### Cartridge (src/cartridge.rs, src/common.rs)

`PRG_Bank` is `[u8; 16_384]`; the cartridge owns `prg_rom: Vec<PRG_Bank>`
and the header-derived bank count `num_prg_banks`. -/

/-- Size in bytes of one PRG bank (`common.rs`: `PRG_Bank = [u8; 16_384]`). -/
def PRG_BANK_SIZE : Nat := 16384

structure Cartridge where
  num_prg_banks : Nat
  prg_rom : List (Nat → Nat)

/-- Embeds `Cartridge::read_prg_rom`: `self.prg_rom.get(num_bank).expect(..)`
panics when the bank is absent, then indexes the `[u8; 16_384]` bank. -/
def Cartridge.read_prg_rom (c : Cartridge) (num_bank : Nat) (addr : Nat) : Option Nat :=
  match c.prg_rom.get? num_bank with
  | none => none
  | some prg_bank => arrayGet PRG_BANK_SIZE prg_bank addr

/-! ### PPU register file (src/ppu/ppu.rs) and APU (src/apu/apu.rs) -/

structure PPU where
  registers : Nat → Nat

/-- Modelled from the spec: `PPU::read_register` is absent from the sources
(the body in `src/ppu/ppu.rs` is commented out and the version called by
`src/mmu.rs` is not in the tree). Per the spec, `read(i ∈ 0..=7)` returns
the current byte, and a read of index 2 (status) additionally clears bit 7
of that byte after the value is captured. -/
def PPU.read_register (p : PPU) (i : Nat) : Nat × PPU :=
  let result := p.registers i
  if i = 2 then
    (result, ⟨fun j => if j = i then result &&& 0x7F else p.registers j⟩)
  else
    (result, p)

/-- Modelled from the spec: `PPU::write_register` is absent from the sources
(commented out in `src/ppu/ppu.rs`). Per the spec, `write(i, byte)` stores
the byte at register index `i`. -/
def PPU.write_register (p : PPU) (i : Nat) (value : Nat) : PPU :=
  ⟨fun j => if j = i then value else p.registers j⟩

/-- Size of the APU register array (`apu.rs`: `registers: [u8; 0x17]`). -/
def APU_REGISTERS_SIZE : Nat := 0x17

structure APU where
  registers : Nat → Nat

/-! ### LowerMemory (src/cpu/cpu.rs lines 14-18)

The source declares `zero_page: [u8; 0xFF]`, `stack: [u8; 0xFF]` and
`ram: [u8; 0x5FF]`; the sizes are embedded verbatim. -/

/-- Length of `LowerMemory.zero_page` as declared in the source: `0xFF` = 255. -/
def ZERO_PAGE_SIZE : Nat := 0xFF

/-- Length of `LowerMemory.stack` as declared in the source: `0xFF` = 255. -/
def STACK_SIZE : Nat := 0xFF

/-- Length of `LowerMemory.ram` as declared in the source: `0x5FF` = 1535. -/
def RAM_SIZE : Nat := 0x5FF

structure LowerMemory where
  zero_page : Nat → Nat
  stack : Nat → Nat
  ram : Nat → Nat

/-! ### MMU (src/mmu.rs) -/

structure MMU where
  lower_memory : Nat → Nat
  active_prgbank_number_lower : Nat
  active_prgbank_number_upper : Nat
  active_chrbank_number : Nat

/-- Embeds `MMU::new`: default bank configuration is lower bank 0 and upper
bank 1; when the cartridge has exactly one PRG bank both selectors are 0 so
the single 16 KiB image is mirrored into both halves. -/
def MMU.new (lower_memory : Nat → Nat) (cartridge : Cartridge) : MMU :=
  if cartridge.num_prg_banks = 1 then
    ⟨lower_memory, 0, 0, 0⟩
  else
    ⟨lower_memory, 0, 1, 0⟩

/-- Embeds `MMU::read_request`, arm for arm in source order. The arms for
`0x2008..=0x3FFF` and the catch-all `_` execute `todo!()` before anything
else and therefore panic (`none`); the mirrored-register read written after
the `todo!()` in the source is unreachable. Returns the byte read and the
(possibly updated) PPU register file. -/
def MMU.read_request (m : MMU) (cartridge : Cartridge) (ppu : PPU) (addr : Nat)
    (lower_memory : LowerMemory) : Option (Nat × PPU) :=
  if 0x8000 ≤ addr ∧ addr ≤ 0xBFFF then
    (cartridge.read_prg_rom m.active_prgbank_number_lower (addr - 0x8000)).map
      (fun b => (b, ppu))
  else if 0xC000 ≤ addr ∧ addr ≤ 0xFFFF then
    (cartridge.read_prg_rom m.active_prgbank_number_upper (addr - 0xC000)).map
      (fun b => (b, ppu))
  else if addr ≤ 0x00FF then
    (arrayGet ZERO_PAGE_SIZE lower_memory.zero_page addr).map (fun b => (b, ppu))
  else if 0x2000 ≤ addr ∧ addr ≤ 0x2007 then
    some (ppu.read_register (addr - 0x2000))
  else if 0x2008 ≤ addr ∧ addr ≤ 0x3FFF then
    none
  else
    none

/-- Embeds `MMU::write_request`, arm for arm in source order. The PRG-ROM
arms (`0x8000..=0xFFFF`), the mirrored-PPU arm (`0x2008..=0x3FFF`) and the
catch-all `_` all execute `todo!()` and panic (`none`). Returns the updated
PPU, LowerMemory and APU state. -/
def MMU.write_request (m : MMU) (ppu : PPU) (addr : Nat) (value : Nat)
    (lower_memory : LowerMemory) (apu : APU) : Option (PPU × LowerMemory × APU) :=
  if 0x8000 ≤ addr ∧ addr ≤ 0xBFFF then
    none
  else if 0xC000 ≤ addr ∧ addr ≤ 0xFFFF then
    none
  else if addr ≤ 0x00FF then
    (arraySet ZERO_PAGE_SIZE lower_memory.zero_page addr value).map
      (fun zp => (ppu, { lower_memory with zero_page := zp }, apu))
  else if 0x2000 ≤ addr ∧ addr ≤ 0x2007 then
    some (ppu.write_register (addr - 0x2000) value, lower_memory, apu)
  else if 0x2008 ≤ addr ∧ addr ≤ 0x3FFF then
    none
  else if 0x4000 ≤ addr ∧ addr ≤ 0x4017 then
    (arraySet APU_REGISTERS_SIZE apu.registers (addr - 0x4000) value).map
      (fun r => (ppu, lower_memory, ⟨r⟩))
  else
    none

/-! ### CPU stack helpers (src/cpu/cpu.rs lines 657-672)

`push_stack` writes through the MMU to `0x100 + S` and then executes
`self.registers.S -= 1`, a non-wrapping `u8` subtraction (an arithmetic
overflow error at `S = 0`); `pop_stack` reads from `0x100 + S + 1` and then
wraps the increment with `wrapping_add`. -/

/-- Embeds `CPU::push_stack`: write `data` to `0x100 + S` through the MMU,
then `S -= 1` (overflowing, hence failing, at `S = 0`). Yields the new `S`
together with the updated device state, or `none` on a panic. -/
def push_stack (mmu : MMU) (S : Nat) (data : Nat) (ppu : PPU)
    (lower_memory : LowerMemory) (apu : APU) :
    Option (Nat × PPU × LowerMemory × APU) :=
  (mmu.write_request ppu (0x100 + S) data lower_memory apu).bind
    (fun st => if S = 0 then none else some (S - 1, st))

/-- Embeds `CPU::pop_stack`: read from `head_addr = 0x100 + S + 1` through
the MMU, then `S = S.wrapping_add(1)`. Yields the byte read, the new `S` and
the updated PPU, or `none` on a panic. -/
def pop_stack (mmu : MMU) (cartridge : Cartridge) (S : Nat) (ppu : PPU)
    (lower_memory : LowerMemory) : Option (Nat × Nat × PPU) :=
  let head_addr := 0x100 + S + 1
  (mmu.read_request cartridge ppu head_addr lower_memory).map
    (fun bp => (bp.1, (S + 1) % 256, bp.2))

/-! ### ADC executor arm (src/cpu/cpu.rs lines 183-227) -/

/-- Embeds `CPU::decimal_mode` (cpu.rs lines 675-679): the `u8` value is
printed as a decimal string and re-read as a two-character hex string, so a
value with fewer or more than two decimal digits makes `from_hex` fail and
the surrounding `.expect` panic. For `10 ≤ data ≤ 99` the result is the
byte whose hex digits are the decimal digits of `data`. -/
def decimal_mode (data : Nat) : Option Nat :=
  if 10 ≤ data ∧ data ≤ 99 then
    some (16 * (data / 10) + data % 10)
  else
    none

/-- Result of the ADC arm: the new accumulator and the new C and V flags.
The N and Z flags are additionally set from the new accumulator via
`modify_n`/`modify_z`. -/
structure AdcOut where
  a : Nat
  c : Bool
  v : Bool
deriving DecidableEq

/-- Embeds the `Instructions::ADC` arm of `CPU::execute_instruction`
(cpu.rs lines 183-227), given the old accumulator `a`, the fetched operand
`m`, the incoming carry flag and the decimal flag: two `overflowing_add`
steps produce the binary result; when the decimal flag is set the result is
passed through `decimal_mode` (which can panic, hence `none`); the carry is
the disjunction of the two overflow indicators and the overflow flag is
computed from the sign bits of `a`, `m` and the (possibly converted)
result. -/
def adcExec (a : Nat) (m : Nat) (carryIn : Bool) (decimalFlag : Bool) : Option AdcOut :=
  let carry : Nat := if carryIn then 1 else 0
  let first_addition : Nat × Bool := ((a + m) % 256, decide (255 < a + m))
  let second_addition : Nat × Bool :=
    ((first_addition.1 + carry) % 256, decide (255 < first_addition.1 + carry))
  (if decimalFlag then decimal_mode second_addition.1 else some second_addition.1).map
    (fun result =>
      let new_carry := first_addition.2 || second_addition.2
      let is_a_negative := a >>> 7 = 1
      let is_m_negative := m >>> 7 = 1
      let is_result_negative := result >>> 7 = 1
      let new_overflow :=
        (is_a_negative ∧ is_m_negative ∧ ¬is_result_negative) ∨
        (¬is_a_negative ∧ ¬is_m_negative ∧ is_result_negative)
      ⟨result, new_carry, decide new_overflow⟩)

/-! ### ASL/LSR executor arm (src/cpu/cpu.rs lines 396-434) -/

/-- Result of the shared ASL/LSR arm: the value stored back (to `A` in
accumulator mode, to memory otherwise) and the new carry flag. -/
structure ShiftOut where
  result : Nat
  c : Bool
deriving DecidableEq

/-- Embeds the `Instructions::ASL | Instructions::LSR` arm of
`CPU::execute_instruction` (cpu.rs lines 396-434): the result is the `u8`
left shift for ASL and the logical right shift for LSR, and the new carry
is computed as `(fetched_memory >> 7) == 1` — the old bit 7 — for BOTH
instructions, exactly as written in the source. -/
def shiftExec (isASL : Bool) (fetched_memory : Nat) : ShiftOut :=
  let result := if isASL then (fetched_memory <<< 1) % 256 else fetched_memory >>> 1
  let new_carry := decide (fetched_memory >>> 7 = 1)
  ⟨result, new_carry⟩

/-! ### PLP and RTI status handling (src/cpu/cpu.rs lines 572-591) -/

/-- Embeds the `Instructions::PLP` arm (cpu.rs lines 572-579): the byte
pulled from the stack is assigned to `P.flags` verbatim —
`self.registers.P.flags = p_flags;` — with no treatment of the B bit. -/
def plpNewStatus (pulled : Nat) : Nat :=
  pulled

/-- Embeds the status handling of the `Instructions::RTI` arm (cpu.rs lines
580-591): `P` is set to the pulled byte and then the BREAK bit (bit 4) is
flipped. -/
def rtiNewStatus (pulled : Nat) : Nat :=
  psSet pulled 4 (!psGet pulled 4)

/-! ### Opcode decoder (src/cpu/decoder.rs) -/

/-- The 56 documented 6502 mnemonics, as in `decoder.rs` `enum Instructions`. -/
inductive Instructions where
  | ADC | AND | ASL | BCC | BCS | BEQ | BIT | BMI | BNE | BPL | BRK | BVC | BVS
  | CLC | CLD | CLI | CLV | CMP | CPX | CPY | DEC | DEX | DEY | EOR | INC | INX
  | INY | JMP | JSR | LDA | LDX | LDY | LSR | NOP | ORA | PHA | PHP | PLA | PLP
  | ROL | ROR | RTI | RTS | SBC | SEC | SED | SEI | STA | STX | STY | TAX | TAY
  | TSX | TXA | TXS | TYA
deriving DecidableEq

/-- Addressing modes, as in `decoder.rs` `enum AddressingMode`. -/
inductive AddressingMode where
  | IMPLIED | ABSOLUTE | ABSOLUTEX | ABSOLUTEY | ZEROPAGE | ZEROPAGEX
  | ZEROPAGEY | RELATIVE | ACCUMULATOR | INDIRECT | INDIRECTX | INDIRECTY
  | IMMEDIATE
deriving DecidableEq

/-- Oops-cycle class, as in `decoder.rs` `enum OopsCycle`. -/
inductive OopsCycle where
  | NONE
  | PageBoundryCrossed
  | BranchOccursOn
deriving DecidableEq

/-- Per-bit advisory change kind, as in `decoder.rs`
`enum ProcessorStatusRegisterBitChanges`. -/
inductive PChange where
  | NotModified | MODIFIED | SET | CLEARED | M6 | M7 | FromStack
deriving DecidableEq

/-- Advisory flag-change record `(N, Z, C, I, D, V)`, as in `decoder.rs`
`struct PBitflagsChange`. -/
structure PBitflagsChange where
  n : PChange
  z : PChange
  c : PChange
  i : PChange
  d : PChange
  v : PChange
deriving DecidableEq

/-- Decoder constant `__1___` of `decode_opcode`: C set, rest untouched. -/
def pbc_c1 : PBitflagsChange := ⟨.NotModified, .NotModified, .SET, .NotModified, .NotModified, .NotModified⟩

/-- Decoder constant `___1__`: I set, rest untouched. -/
def pbc_i1 : PBitflagsChange := ⟨.NotModified, .NotModified, .NotModified, .SET, .NotModified, .NotModified⟩

/-- Decoder constant `____1_`: D set, rest untouched. -/
def pbc_d1 : PBitflagsChange := ⟨.NotModified, .NotModified, .NotModified, .NotModified, .SET, .NotModified⟩

/-- Decoder constant `MM____`: N and Z modified. -/
def pbc_nz : PBitflagsChange := ⟨.MODIFIED, .MODIFIED, .NotModified, .NotModified, .NotModified, .NotModified⟩

/-- Decoder constant `MMM___`: N, Z and C modified. -/
def pbc_nzc : PBitflagsChange := ⟨.MODIFIED, .MODIFIED, .MODIFIED, .NotModified, .NotModified, .NotModified⟩

/-- Decoder constant `MMM__M`: N, Z, C and V modified. -/
def pbc_nzcv : PBitflagsChange := ⟨.MODIFIED, .MODIFIED, .MODIFIED, .NotModified, .NotModified, .MODIFIED⟩

/-- Decoder constant `______`: nothing modified. -/
def pbc_none : PBitflagsChange := ⟨.NotModified, .NotModified, .NotModified, .NotModified, .NotModified, .NotModified⟩

/-- Decoder constant `m7M___m6`: N from bit 7, Z modified, V from bit 6. -/
def pbc_bitop : PBitflagsChange := ⟨.M7, .MODIFIED, .NotModified, .NotModified, .NotModified, .M6⟩

/-- Decoder constant `from_stack`: all six flags restored from the stack. -/
def pbc_from_stack : PBitflagsChange := ⟨.FromStack, .FromStack, .FromStack, .FromStack, .FromStack, .FromStack⟩

/-- Decoder constant `zMM___`: N cleared, Z and C modified. -/
def pbc_n0zc : PBitflagsChange := ⟨.CLEARED, .MODIFIED, .MODIFIED, .NotModified, .NotModified, .NotModified⟩

/-- Decoder constant `__0___`: C cleared, rest untouched. -/
def pbc_c0 : PBitflagsChange := ⟨.NotModified, .NotModified, .CLEARED, .NotModified, .NotModified, .NotModified⟩

/-- Decoder constant `___0__`: I cleared, rest untouched. -/
def pbc_i0 : PBitflagsChange := ⟨.NotModified, .NotModified, .NotModified, .CLEARED, .NotModified, .NotModified⟩

/-- Decoder constant `____0_`: D cleared, rest untouched. -/
def pbc_d0 : PBitflagsChange := ⟨.NotModified, .NotModified, .NotModified, .NotModified, .CLEARED, .NotModified⟩

/-- Decoder constant `_____0`: V cleared, rest untouched. -/
def pbc_v0 : PBitflagsChange := ⟨.NotModified, .NotModified, .NotModified, .NotModified, .NotModified, .CLEARED⟩

set_option maxRecDepth 8192 in
/-- Embeds `decode_opcode` (decoder.rs lines 175-368), entry for entry and
in table order: opcode byte to (mnemonic, addressing mode, byte length,
base cycles, oops class, advisory flag changes); the source's flat `match`
on the opcode byte is rendered as a chain of equality tests so that each
entry stays a one-line translation of its table row; opcodes missing from
the table panic (`none`). -/
def decode_opcode (opcode : Nat) :
    Option (Instructions × AddressingMode × Nat × Nat × OopsCycle × PBitflagsChange) :=
  if opcode = 0x00 then some (.BRK, .IMPLIED, 1, 2, .NONE, pbc_i1) else
  if opcode = 0x01 then some (.ORA, .INDIRECTX, 2, 6, .NONE, pbc_nz) else
  if opcode = 0x05 then some (.ORA, .ZEROPAGE, 2, 3, .NONE, pbc_nz) else
  if opcode = 0x06 then some (.ASL, .ZEROPAGE, 2, 5, .NONE, pbc_nzc) else
  if opcode = 0x08 then some (.PHP, .IMPLIED, 1, 3, .NONE, pbc_none) else
  if opcode = 0x09 then some (.ORA, .IMMEDIATE, 2, 2, .NONE, pbc_nz) else
  if opcode = 0x0A then some (.ASL, .ACCUMULATOR, 1, 2, .NONE, pbc_nzc) else
  if opcode = 0x0D then some (.ORA, .ABSOLUTE, 3, 4, .NONE, pbc_nz) else
  if opcode = 0x0E then some (.ASL, .ABSOLUTE, 3, 6, .NONE, pbc_nzc) else
  if opcode = 0x10 then some (.BPL, .RELATIVE, 2, 2, .BranchOccursOn, pbc_none) else
  if opcode = 0x11 then some (.ORA, .INDIRECTY, 2, 5, .PageBoundryCrossed, pbc_nz) else
  if opcode = 0x15 then some (.ORA, .ZEROPAGEX, 2, 4, .NONE, pbc_nz) else
  if opcode = 0x16 then some (.ASL, .ZEROPAGEX, 2, 6, .NONE, pbc_nzc) else
  if opcode = 0x18 then some (.CLC, .IMPLIED, 1, 2, .NONE, pbc_c0) else
  if opcode = 0x19 then some (.ORA, .ABSOLUTEY, 3, 4, .PageBoundryCrossed, pbc_nz) else
  if opcode = 0x1D then some (.ORA, .ABSOLUTEX, 3, 4, .PageBoundryCrossed, pbc_nz) else
  if opcode = 0x1E then some (.ASL, .ABSOLUTEX, 3, 7, .NONE, pbc_nzc) else
  if opcode = 0x20 then some (.JSR, .ABSOLUTE, 3, 6, .NONE, pbc_none) else
  if opcode = 0x21 then some (.AND, .INDIRECTX, 2, 6, .NONE, pbc_nz) else
  if opcode = 0x24 then some (.BIT, .ZEROPAGE, 2, 3, .NONE, pbc_bitop) else
  if opcode = 0x25 then some (.AND, .ZEROPAGE, 2, 3, .NONE, pbc_nz) else
  if opcode = 0x26 then some (.ROL, .ZEROPAGE, 2, 5, .NONE, pbc_nzc) else
  if opcode = 0x28 then some (.PLP, .IMPLIED, 1, 4, .NONE, pbc_from_stack) else
  if opcode = 0x29 then some (.AND, .IMMEDIATE, 2, 2, .NONE, pbc_nz) else
  if opcode = 0x2A then some (.ROL, .ACCUMULATOR, 1, 2, .NONE, pbc_nzc) else
  if opcode = 0x2C then some (.BIT, .ABSOLUTE, 3, 4, .NONE, pbc_bitop) else
  if opcode = 0x2D then some (.AND, .ABSOLUTE, 3, 4, .NONE, pbc_nz) else
  if opcode = 0x2E then some (.ROL, .ABSOLUTE, 3, 6, .NONE, pbc_nzc) else
  if opcode = 0x30 then some (.BMI, .RELATIVE, 2, 2, .BranchOccursOn, pbc_none) else
  if opcode = 0x31 then some (.AND, .INDIRECTY, 2, 5, .PageBoundryCrossed, pbc_nz) else
  if opcode = 0x35 then some (.AND, .ZEROPAGEX, 2, 4, .NONE, pbc_nz) else
  if opcode = 0x36 then some (.ROL, .ZEROPAGEX, 2, 6, .NONE, pbc_nzc) else
  if opcode = 0x38 then some (.SEC, .IMPLIED, 1, 2, .NONE, pbc_c1) else
  if opcode = 0x39 then some (.AND, .ABSOLUTEY, 3, 4, .PageBoundryCrossed, pbc_nz) else
  if opcode = 0x3D then some (.AND, .ABSOLUTEX, 3, 4, .PageBoundryCrossed, pbc_nz) else
  if opcode = 0x3E then some (.ROL, .ABSOLUTEX, 3, 7, .NONE, pbc_nzc) else
  if opcode = 0x40 then some (.RTI, .IMMEDIATE, 1, 6, .NONE, pbc_from_stack) else
  if opcode = 0x41 then some (.EOR, .INDIRECTX, 2, 6, .NONE, pbc_nz) else
  if opcode = 0x45 then some (.EOR, .ZEROPAGE, 2, 3, .NONE, pbc_nz) else
  if opcode = 0x46 then some (.LSR, .ZEROPAGE, 2, 5, .NONE, pbc_n0zc) else
  if opcode = 0x48 then some (.PHA, .IMPLIED, 1, 3, .NONE, pbc_none) else
  if opcode = 0x49 then some (.EOR, .IMMEDIATE, 2, 2, .NONE, pbc_nz) else
  if opcode = 0x4A then some (.LSR, .ACCUMULATOR, 1, 2, .NONE, pbc_n0zc) else
  if opcode = 0x4C then some (.JMP, .ABSOLUTE, 3, 3, .NONE, pbc_none) else
  if opcode = 0x4D then some (.EOR, .ABSOLUTE, 3, 4, .NONE, pbc_nz) else
  if opcode = 0x4E then some (.LSR, .ABSOLUTE, 3, 6, .NONE, pbc_n0zc) else
  if opcode = 0x50 then some (.BVC, .RELATIVE, 2, 2, .BranchOccursOn, pbc_none) else
  if opcode = 0x51 then some (.EOR, .INDIRECTY, 2, 5, .BranchOccursOn, pbc_nz) else
  if opcode = 0x55 then some (.EOR, .ZEROPAGEX, 2, 4, .NONE, pbc_nz) else
  if opcode = 0x56 then some (.LSR, .ZEROPAGEX, 2, 6, .NONE, pbc_n0zc) else
  if opcode = 0x58 then some (.CLI, .IMPLIED, 1, 2, .NONE, pbc_i0) else
  if opcode = 0x59 then some (.EOR, .ABSOLUTEY, 3, 4, .PageBoundryCrossed, pbc_nz) else
  if opcode = 0x5D then some (.EOR, .ABSOLUTEX, 3, 4, .PageBoundryCrossed, pbc_nz) else
  if opcode = 0x5E then some (.LSR, .ABSOLUTEX, 3, 7, .NONE, pbc_n0zc) else
  if opcode = 0x60 then some (.RTS, .IMPLIED, 1, 6, .NONE, pbc_none) else
  if opcode = 0x61 then some (.ADC, .INDIRECTX, 2, 6, .NONE, pbc_nzcv) else
  if opcode = 0x65 then some (.ADC, .ZEROPAGE, 2, 3, .NONE, pbc_nzcv) else
  if opcode = 0x66 then some (.ROR, .ZEROPAGE, 2, 5, .NONE, pbc_nzc) else
  if opcode = 0x68 then some (.PLA, .IMPLIED, 1, 4, .NONE, pbc_nz) else
  if opcode = 0x69 then some (.ADC, .IMMEDIATE, 2, 2, .NONE, pbc_nzcv) else
  if opcode = 0x6A then some (.ROR, .ACCUMULATOR, 1, 2, .NONE, pbc_nzc) else
  if opcode = 0x6C then some (.JMP, .INDIRECT, 3, 5, .NONE, pbc_none) else
  if opcode = 0x6D then some (.ADC, .ABSOLUTE, 3, 4, .NONE, pbc_nzcv) else
  if opcode = 0x6E then some (.ROR, .ABSOLUTE, 3, 6, .NONE, pbc_nzc) else
  if opcode = 0x70 then some (.BVS, .RELATIVE, 2, 2, .BranchOccursOn, pbc_none) else
  if opcode = 0x71 then some (.ADC, .INDIRECTY, 2, 5, .PageBoundryCrossed, pbc_nzcv) else
  if opcode = 0x75 then some (.ADC, .ZEROPAGEX, 2, 4, .NONE, pbc_nzcv) else
  if opcode = 0x76 then some (.ROR, .ZEROPAGEX, 2, 6, .NONE, pbc_nzc) else
  if opcode = 0x78 then some (.SEI, .IMPLIED, 1, 2, .NONE, pbc_i1) else
  if opcode = 0x79 then some (.ADC, .ABSOLUTEY, 3, 4, .PageBoundryCrossed, pbc_nzcv) else
  if opcode = 0x7D then some (.ADC, .ABSOLUTEX, 3, 4, .PageBoundryCrossed, pbc_nzcv) else
  if opcode = 0x7E then some (.ROR, .ABSOLUTEX, 3, 7, .NONE, pbc_nzc) else
  if opcode = 0x81 then some (.STA, .INDIRECTX, 2, 6, .NONE, pbc_none) else
  if opcode = 0x84 then some (.STY, .ZEROPAGE, 2, 3, .NONE, pbc_none) else
  if opcode = 0x85 then some (.STA, .ZEROPAGE, 2, 3, .NONE, pbc_none) else
  if opcode = 0x86 then some (.STX, .ZEROPAGE, 2, 3, .NONE, pbc_none) else
  if opcode = 0x88 then some (.DEY, .IMPLIED, 1, 2, .NONE, pbc_nz) else
  if opcode = 0x8A then some (.TXA, .IMPLIED, 1, 2, .NONE, pbc_nz) else
  if opcode = 0x8C then some (.STY, .ABSOLUTE, 3, 4, .NONE, pbc_none) else
  if opcode = 0x8D then some (.STA, .ABSOLUTE, 3, 4, .NONE, pbc_none) else
  if opcode = 0x8E then some (.STX, .ABSOLUTE, 3, 4, .NONE, pbc_none) else
  if opcode = 0x90 then some (.BCC, .RELATIVE, 2, 2, .BranchOccursOn, pbc_none) else
  if opcode = 0x91 then some (.STA, .INDIRECTY, 2, 6, .NONE, pbc_none) else
  if opcode = 0x94 then some (.STY, .ZEROPAGEX, 2, 4, .NONE, pbc_none) else
  if opcode = 0x95 then some (.STA, .ZEROPAGEX, 2, 4, .NONE, pbc_none) else
  if opcode = 0x96 then some (.STX, .ZEROPAGEY, 2, 4, .NONE, pbc_none) else
  if opcode = 0x98 then some (.TYA, .IMPLIED, 1, 2, .NONE, pbc_nz) else
  if opcode = 0x99 then some (.STA, .ABSOLUTEY, 3, 5, .NONE, pbc_none) else
  if opcode = 0x9A then some (.TXS, .IMPLIED, 1, 2, .NONE, pbc_none) else
  if opcode = 0x9D then some (.STA, .ABSOLUTEX, 3, 5, .NONE, pbc_none) else
  if opcode = 0xA0 then some (.LDY, .IMMEDIATE, 2, 2, .NONE, pbc_nz) else
  if opcode = 0xA1 then some (.LDA, .INDIRECTX, 2, 6, .NONE, pbc_nz) else
  if opcode = 0xA2 then some (.LDX, .IMMEDIATE, 2, 2, .NONE, pbc_nz) else
  if opcode = 0xA4 then some (.LDY, .ZEROPAGE, 2, 3, .NONE, pbc_nz) else
  if opcode = 0xA5 then some (.LDA, .ZEROPAGE, 2, 3, .NONE, pbc_nz) else
  if opcode = 0xA6 then some (.LDX, .ZEROPAGE, 2, 3, .NONE, pbc_nz) else
  if opcode = 0xA8 then some (.TAY, .IMPLIED, 1, 2, .NONE, pbc_nz) else
  if opcode = 0xA9 then some (.LDA, .IMMEDIATE, 2, 2, .NONE, pbc_nz) else
  if opcode = 0xAA then some (.TAX, .IMPLIED, 1, 2, .NONE, pbc_nz) else
  if opcode = 0xAC then some (.LDY, .ABSOLUTE, 3, 4, .NONE, pbc_nz) else
  if opcode = 0xAD then some (.LDA, .ABSOLUTE, 3, 4, .NONE, pbc_nz) else
  if opcode = 0xAE then some (.LDX, .ABSOLUTE, 3, 4, .NONE, pbc_nz) else
  if opcode = 0xB0 then some (.BCS, .RELATIVE, 2, 2, .BranchOccursOn, pbc_none) else
  if opcode = 0xB1 then some (.LDA, .INDIRECTY, 2, 5, .PageBoundryCrossed, pbc_nz) else
  if opcode = 0xB4 then some (.LDY, .ZEROPAGEX, 2, 4, .NONE, pbc_nz) else
  if opcode = 0xB5 then some (.LDA, .ZEROPAGEX, 2, 4, .NONE, pbc_nz) else
  if opcode = 0xB6 then some (.LDX, .ZEROPAGEY, 2, 4, .NONE, pbc_nz) else
  if opcode = 0xB8 then some (.CLV, .IMPLIED, 1, 2, .NONE, pbc_v0) else
  if opcode = 0xB9 then some (.LDA, .ABSOLUTEY, 3, 4, .PageBoundryCrossed, pbc_nz) else
  if opcode = 0xBA then some (.TSX, .IMPLIED, 1, 2, .NONE, pbc_nz) else
  if opcode = 0xBC then some (.LDY, .ABSOLUTEX, 3, 4, .PageBoundryCrossed, pbc_nz) else
  if opcode = 0xBD then some (.LDA, .ABSOLUTEX, 3, 4, .PageBoundryCrossed, pbc_nz) else
  if opcode = 0xBE then some (.LDX, .ABSOLUTEY, 3, 4, .PageBoundryCrossed, pbc_nz) else
  if opcode = 0xC0 then some (.CPY, .IMMEDIATE, 2, 2, .NONE, pbc_nzc) else
  if opcode = 0xC1 then some (.CMP, .INDIRECTX, 2, 6, .NONE, pbc_nzc) else
  if opcode = 0xC4 then some (.CPY, .ZEROPAGE, 2, 3, .NONE, pbc_nzc) else
  if opcode = 0xC5 then some (.CMP, .ZEROPAGE, 2, 3, .NONE, pbc_nzc) else
  if opcode = 0xC6 then some (.DEC, .ZEROPAGE, 2, 5, .NONE, pbc_nz) else
  if opcode = 0xC8 then some (.INY, .IMPLIED, 1, 2, .NONE, pbc_nz) else
  if opcode = 0xC9 then some (.CMP, .IMMEDIATE, 2, 2, .NONE, pbc_nzc) else
  if opcode = 0xCA then some (.DEX, .IMPLIED, 1, 2, .NONE, pbc_nz) else
  if opcode = 0xCC then some (.CPY, .ABSOLUTE, 3, 4, .NONE, pbc_nzc) else
  if opcode = 0xCD then some (.CMP, .ABSOLUTE, 3, 4, .NONE, pbc_nzc) else
  if opcode = 0xCE then some (.DEC, .ABSOLUTE, 3, 6, .NONE, pbc_nz) else
  if opcode = 0xD0 then some (.BNE, .RELATIVE, 2, 2, .BranchOccursOn, pbc_none) else
  if opcode = 0xD1 then some (.CMP, .INDIRECTY, 2, 5, .PageBoundryCrossed, pbc_nzc) else
  if opcode = 0xD5 then some (.CMP, .ZEROPAGEX, 2, 4, .NONE, pbc_nzc) else
  if opcode = 0xD6 then some (.DEC, .ZEROPAGEX, 2, 6, .NONE, pbc_nz) else
  if opcode = 0xD8 then some (.CLD, .IMPLIED, 1, 2, .NONE, pbc_d0) else
  if opcode = 0xD9 then some (.CMP, .ABSOLUTEY, 3, 4, .PageBoundryCrossed, pbc_nzc) else
  if opcode = 0xDD then some (.CMP, .ABSOLUTEX, 3, 4, .PageBoundryCrossed, pbc_nzc) else
  if opcode = 0xDE then some (.DEC, .ABSOLUTEX, 3, 7, .NONE, pbc_nz) else
  if opcode = 0xE0 then some (.CPX, .IMMEDIATE, 2, 2, .NONE, pbc_nzc) else
  if opcode = 0xE1 then some (.SBC, .INDIRECTX, 2, 6, .NONE, pbc_nzcv) else
  if opcode = 0xE4 then some (.CPX, .ZEROPAGE, 2, 3, .NONE, pbc_nzc) else
  if opcode = 0xE5 then some (.SBC, .ZEROPAGE, 2, 3, .NONE, pbc_nzcv) else
  if opcode = 0xE6 then some (.INC, .ZEROPAGE, 2, 5, .NONE, pbc_nz) else
  if opcode = 0xE8 then some (.INX, .IMPLIED, 1, 2, .NONE, pbc_nz) else
  if opcode = 0xE9 then some (.SBC, .IMMEDIATE, 2, 2, .NONE, pbc_nzcv) else
  if opcode = 0xEA then some (.NOP, .IMPLIED, 1, 2, .NONE, pbc_none) else
  if opcode = 0xEC then some (.CPX, .ABSOLUTE, 3, 4, .NONE, pbc_nzc) else
  if opcode = 0xED then some (.SBC, .ABSOLUTE, 3, 4, .NONE, pbc_nzcv) else
  if opcode = 0xEE then some (.INC, .ABSOLUTE, 3, 6, .NONE, pbc_nz) else
  if opcode = 0xF0 then some (.BEQ, .RELATIVE, 2, 2, .BranchOccursOn, pbc_none) else
  if opcode = 0xF1 then some (.SBC, .INDIRECTY, 2, 5, .PageBoundryCrossed, pbc_nzcv) else
  if opcode = 0xF5 then some (.SBC, .ZEROPAGEX, 2, 4, .NONE, pbc_nzcv) else
  if opcode = 0xF6 then some (.INC, .ZEROPAGEX, 2, 6, .NONE, pbc_nz) else
  if opcode = 0xF8 then some (.SED, .IMPLIED, 1, 2, .NONE, pbc_d1) else
  if opcode = 0xF9 then some (.SBC, .ABSOLUTEY, 3, 4, .PageBoundryCrossed, pbc_nzcv) else
  if opcode = 0xFD then some (.SBC, .ABSOLUTEX, 3, 4, .PageBoundryCrossed, pbc_nzcv) else
  if opcode = 0xFE then some (.INC, .ABSOLUTEX, 3, 7, .NONE, pbc_nz) else
  none

/-! ### iNES parser (src/rom_parser.rs)

`RomParser::parse` reads the file, then runs `parse_header`,
`parse_prg_rom` and `parse_chr_rom` in that order on the byte contents.
The contents are embedded as a `List Nat` of bytes; a failed `assert!`
or a panicking slice/index is `none`. -/

/-- TV system variants (`rom_parser.rs` `enum TVSystem`). -/
inductive TVSystem where
  | NTSC
  | PAL
  | DUAL
deriving DecidableEq

/-- Nametable mirroring variants (`rom_parser.rs` `enum MirrorType`). -/
inductive MirrorType where
  | HORIZONTAL
  | VERTICAL
deriving DecidableEq

/-- The parsed iNES header (`rom_parser.rs` `struct Header`). -/
structure Header where
  prg_rom_size : Nat
  chr_rom_size : Nat
  mapper : Nat
  mirroring : MirrorType
  battery_prg_ram : Bool
  trainer : Bool
  ignore_mirroring_control : Bool
  vs_unit_system : Bool
  play_choise_10 : Bool
  nes2_format : Bool
  prg_ram_size : Nat
  flags9_tv_system : TVSystem
  flags10_tv_system : TVSystem
  prg_ram_not_present : Bool
  bus_conflicts : Bool
deriving DecidableEq

/-- Embeds `RomParser::parse_header` check for check in source order: the
4-byte magic (`&contents[0..4]` panics on a shorter input), the reads of
bytes 6-10 (indexing panics when absent), the NES-2.0 rejection, the
flags-9 reserved-bits assertion `assert_eq!(flags9 >> 1, 0, ..)`, the
mapper-0 check, the header construction from bytes 4 and 5, and finally the
padding check on `&contents[11..16]`. -/
def parse_header (contents : List Nat) : Option Header :=
  if 4 ≤ contents.length then
    if contents.take 4 = [0x4E, 0x45, 0x53, 0x1A] then
      match contents.get? 4, contents.get? 5, contents.get? 6, contents.get? 7,
            contents.get? 8, contents.get? 9, contents.get? 10 with
      | some b4, some b5, some flags6, some flags7, some flags8, some flags9,
        some flags10 =>
        let mirroring := if flags6 &&& 1 = 1 then MirrorType.VERTICAL else MirrorType.HORIZONTAL
        let battery_prg_ram := (flags6 >>> 1) &&& 1 = 1
        let trainer := (flags6 >>> 2) &&& 1 = 1
        let ignore_mirroring_control := (flags6 >>> 3) &&& 1 = 1
        let lsb_mapper := flags6 >>> 4
        let vs_unit_system := flags7 &&& 1 = 1
        let play_choise_10 := (flags7 >>> 1) &&& 1 = 1
        let nes2_format := (flags7 >>> 2) &&& 0b00000011 = 2
        if nes2_format then none
        else
          let msb_mapper := flags7 &&& 0b11110000
          let prg_ram_size := flags8
          let flags9_tv_system := if flags9 &&& 1 = 1 then TVSystem.PAL else TVSystem.NTSC
          if flags9 >>> 1 = 0 then
            let flags10_tv_system :=
              match flags10 &&& 0b00000011 with
              | 0 => TVSystem.NTSC
              | 2 => TVSystem.PAL
              | _ => TVSystem.DUAL
            let prg_ram_not_present := flags10 >>> 4 = 1
            let bus_conflicts := flags10 >>> 5 = 1
            let mapper := msb_mapper ||| lsb_mapper
            if mapper ≠ 0 then none
            else
              let header : Header :=
                ⟨b4, b5, mapper, mirroring, decide battery_prg_ram, decide trainer,
                 decide ignore_mirroring_control, decide vs_unit_system,
                 decide play_choise_10, decide nes2_format, prg_ram_size,
                 flags9_tv_system, flags10_tv_system, decide prg_ram_not_present,
                 decide bus_conflicts⟩
              if 16 ≤ contents.length then
                if (contents.drop 11).take 5 = [0, 0, 0, 0, 0] then some header
                else none
              else none
          else none
      | _, _, _, _, _, _, _ => none
    else none
  else none

/-- Splits a list into consecutive chunks of exactly `n` elements,
discarding the remainder — the semantics of Rust `chunks_exact(n)` for
`n > 0`. -/
def chunksExact (n : Nat) (l : List α) : List (List α) :=
  if h : 0 < n ∧ n ≤ l.length then
    l.take n :: chunksExact n (l.drop n)
  else
    []
termination_by l.length
decreasing_by
  simp only [List.length_drop]
  omega

/-- Embeds `RomParser::parse_prg_rom`: slice `&contents[16..16 + 16384*prg]`
(panicking when the file is shorter) and split it into 16 KiB banks with
`chunks_exact`. -/
def parse_prg_rom (header : Header) (contents : List Nat) : Option (List (List Nat)) :=
  let prg_rom_size_bytes := 1024 * 16 * header.prg_rom_size
  if 16 + prg_rom_size_bytes ≤ contents.length then
    some (chunksExact (16 * 1024) ((contents.drop 16).take prg_rom_size_bytes))
  else
    none

/-- Embeds `RomParser::parse_chr_rom`: `chr_rom_bytes` is `8192 * chr`, but
is forced to `8192` when the header declares zero CHR banks; the slice
`&contents[16 + prg_bytes..]` takes the rest of the file, the source then
asserts `chr_rom.len() == chr_rom_bytes` and splits the slice into 8 KiB
banks with `chunks_exact`. -/
def parse_chr_rom (header : Header) (contents : List Nat) : Option (List (List Nat)) :=
  let chr_rom_bytes :=
    if 1024 * 8 * header.chr_rom_size = 0 then 1024 * 8
    else 1024 * 8 * header.chr_rom_size
  let prg_rom_size_bytes := 1024 * 16 * header.prg_rom_size
  if 16 + prg_rom_size_bytes ≤ contents.length then
    let chr_rom := contents.drop (16 + prg_rom_size_bytes)
    if chr_rom.length = chr_rom_bytes then
      some (chunksExact (8 * 1024) chr_rom)
    else
      none
  else
    none

/-- Embeds `RomParser::parse` on in-memory contents: `parse_header`, then
`parse_prg_rom`, then `parse_chr_rom`; a panic in any phase aborts the
parse. -/
def parse_rom (contents : List Nat) : Option (Header × List (List Nat) × List (List Nat)) :=
  (parse_header contents).bind fun header =>
    (parse_prg_rom header contents).bind fun prg =>
      (parse_chr_rom header contents).map fun chr =>
        (header, prg, chr)

/-! ### Concrete machine states for witnesses -/

/-- The all-zero byte array. -/
def zeroBytes : Nat → Nat := fun _ => 0

/-- An all-zero `LowerMemory`. -/
def lm0 : LowerMemory := ⟨zeroBytes, zeroBytes, zeroBytes⟩

/-- A PPU register file holding zeros. -/
def ppu0 : PPU := ⟨zeroBytes⟩

/-- An APU register file holding zeros. -/
def apu0 : APU := ⟨zeroBytes⟩

/-- A cartridge with a single PRG bank whose every byte is 7. -/
def cart1 : Cartridge := ⟨1, [fun _ => 7]⟩

/-- A cartridge with two PRG banks, filled with 7 and 9 respectively. -/
def cart2 : Cartridge := ⟨2, [fun _ => 7, fun _ => 9]⟩

/-- Header bytes of the C9 image: the iNES magic, 1 PRG bank, 0 CHR banks,
and all remaining header bytes zero. -/
def c9HeaderBytes : List Nat := [0x4E, 0x45, 0x53, 0x1A, 1, 0, 0, 0, 0, 0, 0, 0, 0, 0, 0, 0]

/-! ### Claim C1 — ADC accumulator and carry -/

/-- C1 (counterexample): the claim "for all a, m, c_in, after ADC the new
accumulator equals (a + m + c_in) mod 256" is false as stated: with the
decimal flag set (a = 0x09, m = 0x02, c_in = 0) the code converts the
binary sum 0x0B through `decimal_mode` and stores 0x11 in the
accumulator. -/
theorem ADC_decimal_counterexample :
    (adcExec 0x09 0x02 false true).map AdcOut.a = some 0x11 ∧
    (0x11 : Nat) ≠ (0x09 + 0x02 + 0) % 256 := by
  constructor
  · rfl
  · decide

/-- C1 (amended): for all a, m, c_in, when the decimal flag is clear, ADC
stores (a + m + c_in) mod 256 in the accumulator and sets the carry flag
exactly when a + m + c_in ≥ 256. -/
theorem ADC_binary_add_correct (a m : Nat) (cIn : Bool)
    (ha : a < 256) (hm : m < 256) :
    (adcExec a m cIn false).map (fun r => (r.a, r.c)) =
      some ((a + m + (if cIn then 1 else 0)) % 256,
            decide (256 ≤ a + m + (if cIn then 1 else 0))) := by
  cases cIn <;>
  · simp only [adcExec, Bool.false_eq_true, ↓reduceIte, Option.map_some', Option.some.injEq,
      Prod.mk.injEq]
    refine ⟨by omega, ?_⟩
    rw [Bool.eq_iff_iff]
    simp only [Bool.or_eq_true, decide_eq_true_eq]
    omega

/-- Witness for `ADC_binary_add_correct` at a = 9, m = 2, carry clear. -/
theorem ADC_binary_add_correct_witness :
    (adcExec 0x09 0x02 false false).map (fun r => (r.a, r.c)) =
      some ((0x09 + 0x02 + (if false then 1 else 0)) % 256,
            decide (256 ≤ 0x09 + 0x02 + (if false then 1 else 0))) :=
  ADC_binary_add_correct 0x09 0x02 false (by decide) (by decide)

/-! ### Claim C2 — LSR carry -/

/-- C2: the shared ASL/LSR arm computes the new carry as bit 7 of the old
operand for BOTH instructions, so for LSR the carry does not equal the old
bit 0: on operand 0x01 (old bit 0 set) the carry comes out false even
though the value stored back is the correct logical shift 0x00, and on
operand 0x80 (old bit 0 clear) the carry comes out true. -/
theorem LSR_carry_from_bit7_bug :
    (shiftExec false 0x01).c = false ∧
    (0x01 : Nat) &&& 1 = 1 ∧
    (shiftExec false 0x01).result = 0x00 ∧
    (shiftExec false 0x80).c = true ∧
    (0x80 : Nat) &&& 1 = 0 := by
  decide

/-! ### Claim C3 — stack push/pull -/

/-- C3: every `push_stack` panics, because the MMU write for any stack-page
address 0x0100 + S falls into the catch-all `todo!()` arm of
`MMU::write_request`; likewise `pop_stack` panics on the read. In
particular a push with S = 0 fails rather than wrapping to S = 255. -/
theorem push_stack_todo_bug :
    push_stack (MMU.new zeroBytes cart1) 0xFF 0x8C ppu0 lm0 apu0 = none ∧
    push_stack (MMU.new zeroBytes cart1) 0x00 0xAB ppu0 lm0 apu0 = none ∧
    pop_stack (MMU.new zeroBytes cart1) cart1 0xFD ppu0 lm0 = none :=
  ⟨rfl, rfl, rfl⟩

/-! ### Claim C4 — MMU mirroring -/

/-- C4: a read at 0x0800 does not return the byte at 0x0800 mod 0x0800 =
0x0000 — it hits the catch-all `todo!()` arm and panics (`none`) while the
read at 0x0000 succeeds; a read at 0x2008 likewise panics in the
`0x2008..=0x3FFF` arm instead of targeting PPU register (0x2008 - 0x2000)
mod 8 = 0, while the read at 0x2000 succeeds. -/
theorem mmu_mirror_todo_bug :
    MMU.read_request (MMU.new zeroBytes cart1) cart1 ppu0 0x0800 lm0 = none ∧
    MMU.read_request (MMU.new zeroBytes cart1) cart1 ppu0 0x0000 lm0 = some (0, ppu0) ∧
    MMU.read_request (MMU.new zeroBytes cart1) cart1 ppu0 0x2008 lm0 = none ∧
    MMU.read_request (MMU.new zeroBytes cart1) cart1 ppu0 0x2000 lm0 = some (0, ppu0) :=
  ⟨rfl, rfl, rfl, rfl⟩

/-! ### Claim C5 — zero page bounds -/

/-- C5: the zero-page array is declared `[u8; 0xFF]` — 255 bytes, not
256 — so the MMU access at address 0x00FF indexes one past the end and
panics (`none`) for both reads and writes, while the access at 0x00FE is in
bounds. -/
theorem zero_page_off_by_one_bug :
    MMU.read_request (MMU.new zeroBytes cart1) cart1 ppu0 0x00FF lm0 = none ∧
    MMU.write_request (MMU.new zeroBytes cart1) ppu0 0x00FF 0x07 lm0 apu0 = none ∧
    MMU.read_request (MMU.new zeroBytes cart1) cart1 ppu0 0x00FE lm0 = some (0, ppu0) ∧
    ZERO_PAGE_SIZE = 255 :=
  ⟨rfl, rfl, rfl, rfl⟩

/-! ### Claim C6 — PLP and the B bit -/

/-- C6: the PLP arm assigns the pulled byte to P verbatim, including its B
bit: with pre-push status 0x10 (B set) and pulled byte 0x00, after PLP the
B bit (bit 4) reads false — the pulled value — rather than keeping the
pre-push sense; the RTI arm, by contrast, does flip the pulled B bit. -/
theorem PLP_break_bit_bug :
    plpNewStatus 0x00 = 0x00 ∧
    psGet (plpNewStatus 0x00) 4 = false ∧
    psGet 0x10 4 = true ∧
    psGet (rtiNewStatus 0x00) 4 = true := by
  decide

/-! ### Claim C7 — decoder oops classes -/

set_option maxRecDepth 4096 in
/-- C7: opcode 0x51 (EOR indirect-Y) decodes with oops class
`BranchOccursOn` — not `PageBoundryCrossed` as the claim states — and it is
the only table entry whose oops class is `BranchOccursOn` without being a
RELATIVE-mode conditional branch. -/
theorem opcode_0x51_oops_bug :
    decode_opcode 0x51 = some (.EOR, .INDIRECTY, 2, 5, .BranchOccursOn, pbc_nz) ∧
    OopsCycle.BranchOccursOn ≠ OopsCycle.PageBoundryCrossed ∧
    ((List.range 256).all fun op =>
      match decode_opcode op with
      | none => true
      | some t =>
        !(t.2.2.2.2.1 == OopsCycle.BranchOccursOn) ||
          (t.2.1 == AddressingMode.RELATIVE) || (op == 0x51)) = true := by
  refine ⟨by decide, by decide, by decide⟩

/-! ### Claim C8 — PRG bank selection at reset -/

/-- C8: at construction, when the cartridge has exactly one PRG bank both
active bank selectors are 0 and every read in 0x8000..0xBFFF returns the
same bank-0 byte as the corresponding read in 0xC000..0xFFFF; when the
cartridge has more than one PRG bank the lower selector is 0 and the upper
selector is 1. -/
theorem mmu_reset_bank_selection (lmArr : Nat → Nat) (c : Cartridge) (ppu : PPU)
    (lm : LowerMemory) :
    (c.num_prg_banks = 1 →
      (MMU.new lmArr c).active_prgbank_number_lower = 0 ∧
      (MMU.new lmArr c).active_prgbank_number_upper = 0 ∧
      (∀ o, o < 16384 →
        (MMU.new lmArr c).read_request c ppu (0x8000 + o) lm =
          (c.read_prg_rom 0 o).map (fun b => (b, ppu)) ∧
        (MMU.new lmArr c).read_request c ppu (0xC000 + o) lm =
          (c.read_prg_rom 0 o).map (fun b => (b, ppu)))) ∧
    (1 < c.num_prg_banks →
      (MMU.new lmArr c).active_prgbank_number_lower = 0 ∧
      (MMU.new lmArr c).active_prgbank_number_upper = 1) := by
  constructor
  · intro h1
    have hm : MMU.new lmArr c = ⟨lmArr, 0, 0, 0⟩ := by
      unfold MMU.new
      rw [if_pos h1]
    rw [hm]
    refine ⟨rfl, rfl, fun o ho => ⟨?_, ?_⟩⟩
    · unfold MMU.read_request
      rw [if_pos ⟨by omega, by omega⟩]
      have h2 : 0x8000 + o - 0x8000 = o := by omega
      rw [h2]
    · unfold MMU.read_request
      rw [if_neg (by omega), if_pos ⟨by omega, by omega⟩]
      have h2 : 0xC000 + o - 0xC000 = o := by omega
      rw [h2]
  · intro h1
    have hm : MMU.new lmArr c = ⟨lmArr, 0, 1, 0⟩ := by
      unfold MMU.new
      rw [if_neg (by omega)]
    rw [hm]
    exact ⟨rfl, rfl⟩

/-- Witness for `mmu_reset_bank_selection` on a one-bank cartridge filled
with 7 (mirrored reads at offset 3) and a two-bank cartridge. -/
theorem mmu_reset_bank_selection_witness :
    (MMU.new zeroBytes cart1).active_prgbank_number_lower = 0 ∧
    (MMU.new zeroBytes cart1).active_prgbank_number_upper = 0 ∧
    (MMU.new zeroBytes cart1).read_request cart1 ppu0 (0x8000 + 3) lm0 = some (7, ppu0) ∧
    (MMU.new zeroBytes cart1).read_request cart1 ppu0 (0xC000 + 3) lm0 = some (7, ppu0) ∧
    (MMU.new zeroBytes cart2).active_prgbank_number_lower = 0 ∧
    (MMU.new zeroBytes cart2).active_prgbank_number_upper = 1 := by
  obtain ⟨h1, -⟩ := mmu_reset_bank_selection zeroBytes cart1 ppu0 lm0
  obtain ⟨ha1, ha2, ha3⟩ := h1 rfl
  obtain ⟨ho1, ho2⟩ := ha3 3 (by omega)
  obtain ⟨-, hb⟩ := mmu_reset_bank_selection zeroBytes cart2 ppu0 lm0
  obtain ⟨hb1, hb2⟩ := hb (by decide)
  exact ⟨ha1, ha2, by rw [ho1]; rfl, by rw [ho2]; rfl, hb1, hb2⟩

/-! ### Claim C9 — chr_banks == 0 and the empty CHR bank -/

/-- C9: parsing an image that is exactly the 16-byte header (declaring
chr_banks = 0) followed by 16 KiB of PRG data does NOT succeed: the header
and PRG phases pass, but `parse_chr_rom` asserts that the rest of the file
holds `chr_rom_bytes = 8192` bytes, and the rest is empty, so the assert
fails and the parse panics instead of allocating an empty CHR bank. -/
theorem parse_chr_missing_trailer_bug (p : List Nat) (hp : p.length = 16384) :
    parse_rom (c9HeaderBytes ++ p) = none := by
  have hlen : (c9HeaderBytes ++ p).length = 16400 := by
    simp [c9HeaderBytes, hp]
  have hheader : parse_header (c9HeaderBytes ++ p) =
      some ⟨1, 0, 0, .HORIZONTAL, false, false, false, false, false, false, 0, .NTSC, .NTSC,
        false, false⟩ := by
    unfold parse_header
    rw [hlen,
        show (c9HeaderBytes ++ p).get? 4 = some 1 from rfl,
        show (c9HeaderBytes ++ p).get? 5 = some 0 from rfl,
        show (c9HeaderBytes ++ p).get? 6 = some 0 from rfl,
        show (c9HeaderBytes ++ p).get? 7 = some 0 from rfl,
        show (c9HeaderBytes ++ p).get? 8 = some 0 from rfl,
        show (c9HeaderBytes ++ p).get? 9 = some 0 from rfl,
        show (c9HeaderBytes ++ p).get? 10 = some 0 from rfl]
    rfl
  have hchr : parse_chr_rom ⟨1, 0, 0, .HORIZONTAL, false, false, false, false, false, false, 0,
      .NTSC, .NTSC, false, false⟩ (c9HeaderBytes ++ p) = none := by
    unfold parse_chr_rom
    simp only []
    rw [hlen, List.length_drop, hlen]
    rfl
  unfold parse_rom
  rw [hheader]
  show (parse_prg_rom ⟨1, 0, 0, .HORIZONTAL, false, false, false, false, false, false, 0,
    .NTSC, .NTSC, false, false⟩ (c9HeaderBytes ++ p)).bind _ = none
  unfold parse_prg_rom
  simp only []
  rw [hlen]
  split
  · show (parse_chr_rom ⟨1, 0, 0, .HORIZONTAL, false, false, false, false, false, false, 0,
      .NTSC, .NTSC, false, false⟩ (c9HeaderBytes ++ p)).map _ = none
    rw [hchr]
    rfl
  · rfl

/-- Witness for `parse_chr_missing_trailer_bug` with 16 KiB of zero PRG
data. -/
theorem parse_chr_missing_trailer_bug_witness :
    (List.replicate 16384 0).length = 16384 ∧
    parse_rom (c9HeaderBytes ++ List.replicate 16384 0) = none :=
  ⟨by rw [List.length_replicate],
   parse_chr_missing_trailer_bug (List.replicate 16384 0) (by rw [List.length_replicate])⟩

/-! ### Claim C10 — flags-9 reserved bits -/

/-- Helper for C10: `parse_header` fails on every input whose byte 9 has a
set bit among bits 1..=7, whatever the rest of the image looks like. -/
theorem parse_header_flags9_reject (contents : List Nat) (b9 : Nat)
    (h9 : contents.get? 9 = some b9) (hb : b9 >>> 1 ≠ 0) :
    parse_header contents = none := by
  unfold parse_header
  split
  case isFalse => rfl
  split
  case isFalse => rfl
  rw [h9]
  split
  · rename_i b4 b5 f6 f7 f8 f9 f10 hq4 hq5 hq6 hq7 hq8 hq9 hq10
    obtain rfl : f9 = b9 := (Option.some.inj hq9).symm
    simp only []
    repeat' split
    all_goals first
      | rfl
      | exact absurd (by assumption) hb
  · rfl

/-- C10: the parser fails fatally on every image whose header byte 9 has
any of bits 1..=7 set (the `assert_eq!(flags9 >> 1, 0, ..)` in
`parse_header`), however valid the rest of the image is; acceptance
requires `flags9 >> 1 == 0`. -/
theorem iNES_flags9_reserved_reject (contents : List Nat) (b9 : Nat)
    (h9 : contents.get? 9 = some b9) (hb : b9 >>> 1 ≠ 0) :
    parse_rom contents = none := by
  have hh : parse_header contents = none :=
    parse_header_flags9_reject contents b9 h9 hb
  unfold parse_rom
  rw [hh]
  rfl

/-- Witness for `iNES_flags9_reserved_reject`: an image whose byte 9 is 2
(an otherwise plausible mapper-0 prefix) is rejected. -/
theorem iNES_flags9_reserved_reject_witness :
    ([0x4E, 0x45, 0x53, 0x1A, 1, 0, 0, 0, 0, 2] : List Nat).get? 9 = some 2 ∧
    (2 : Nat) >>> 1 ≠ 0 ∧
    parse_rom [0x4E, 0x45, 0x53, 0x1A, 1, 0, 0, 0, 0, 2] = none :=
  ⟨rfl, by decide, iNES_flags9_reserved_reject [0x4E, 0x45, 0x53, 0x1A, 1, 0, 0, 0, 0, 2] 2
    rfl (by decide)⟩

end NesEmu
